import Mathlib

/-!
Shallow embedding of the QLDB session pool (`src/session_pool.rs`).

Conventions used throughout:
* Time is modelled in whole seconds of a monotonic clock (`Instant` ↦ `Nat`);
  `elapsed` becomes truncated subtraction `now - created_on`.
* A `VecDeque` is modelled as a `List` whose HEAD is the `pop_back` end and
  whose TAIL end receives `push_front` (so `pop_back` = `List.head?`,
  `push_front s` = `l ++ [s]`).  This keeps the recursions structural while
  preserving the FIFO discipline of the source exactly.
* An `async_channel::Sender<Session>` reply channel is modelled by a `Waiter`
  carrying an `alive` flag: `try_send` succeeds iff the receiver is still
  there (`alive = true`); on failure `get_session_from_send_err` hands the
  session back, which the model expresses by returning it to the idle list.
* The u16 `active_session_count` with `saturating_add`/`saturating_sub` is
  modelled over `Int` (for the pure numeric claims) and over `Nat` with
  explicit clamping (inside the pool state machine).
* The rusoto transport is an oracle: attempt number ↦ wire-level outcome.
-/

/-- Mirrors `InnerSession`/`Session` (lines 22–50): an opaque session token
plus the monotonic creation timestamp. -/
structure Session where
  session_id : String
  created_on : Nat
deriving DecidableEq

/-- Mirrors `Session::is_valid` (lines 47–49):
`created_on_instant.elapsed().as_secs() < 10 * 60`. -/
def Session.is_valid (now : Nat) (s : Session) : Bool :=
  now - s.created_on < 10 * 60

/-- Mirrors `Session::new` (lines 34–41): fresh session stamped with the
current instant. -/
def Session.mk_new (now : Nat) (token : String) : Session :=
  ⟨token, now⟩

/-- A pending `get()` caller's one-shot reply channel.  `alive = true` means
its `try_send` will succeed; `alive = false` models a dropped or already
satisfied receiver (`TrySendError::Closed`/`Full`). -/
structure Waiter where
  wid : Nat
  alive : Bool
deriving DecidableEq

/-! Section: The shutdown synchronizer (`PoolEndFuture`, lines 388–421) -/

/-- A task's wake handle, opaque. -/
abbrev Waker := Nat

/-- Mirrors `struct PoolEndFuture` (lines 388–392). -/
structure PoolEndFuture where
  waker : Option Waker
  ready : Bool
deriving DecidableEq

/-- Mirrors `PoolEndFuture::new` (lines 394–400). -/
def PoolEndFuture.mk_new : PoolEndFuture :=
  ⟨none, false⟩

/-- Mirrors `PoolEndFuture::close(mut self)` (lines 402–408): the value is
consumed, its `ready` flag is set on the consumed copy, and the recorded
waker (if any) is woken.  Returns the mutated (and then dropped) value and
the waker that was woken. -/
def PoolEndFuture.close (f : PoolEndFuture) : PoolEndFuture × Option Waker :=
  ({ f with ready := true, waker := none }, f.waker)

/-- Mirrors `Future::poll` for `PoolEndFuture` (lines 411–421): ready ⇒
`Poll::Ready`; otherwise record the caller's waker and report pending.
The returned `Bool` is `true` for `Poll::Ready`. -/
def PoolEndFuture.poll (f : PoolEndFuture) (w : Waker) : PoolEndFuture × Bool :=
  if f.ready then (f, true) else (⟨some w, f.ready⟩, false)

/-- The shutdown wiring of `SessionPool::new` and `close` (lines 73–74,
188–191, 194–198): the facade stores one `PoolEndFuture` (inside
`Arc<Mutex<Option<_>>>`), while the worker thread blocks on a SECOND,
independently constructed `PoolEndFuture` (`closer_executor`), passed to
`executor.run`. -/
structure PoolShutdownState where
  facade_closer : Option PoolEndFuture
  worker_future : PoolEndFuture
deriving DecidableEq

/-- Lines 73–74 and 185–191: `let closer = PoolEndFuture::new(); let
closer_executor = PoolEndFuture::new();` — two separate values, one kept by
the facade, one awaited by the worker. -/
def PoolShutdownState.init : PoolShutdownState :=
  ⟨some PoolEndFuture.mk_new, PoolEndFuture.mk_new⟩

/-- Mirrors `SessionPool::close` (lines 194–198): take the facade's
`PoolEndFuture` out of the option (if still present) and call `close()` on
it; the result of `close` is dropped.  The worker's future is not touched
(there is no aliasing between the two values in the source). -/
def SessionPool.close_pool (st : PoolShutdownState) : PoolShutdownState :=
  match st.facade_closer with
  | some f =>
      let _ := PoolEndFuture.close f
      ⟨none, st.worker_future⟩
  | none => st

/-! Section: Saturating u16 bookkeeping (`close_session` lines 306–309,
`add_session` lines 381–384), over `Int` so that "never wraps below 0 /
past 65535" is a real statement. -/

/-- The count update of `close_session` (lines 306–309):
`count.saturating_sub(1)` on a `u16`. -/
def close_session_count (c : Int) : Int :=
  max (c - 1) 0

/-- The count update of `add_session` (lines 381–384):
`count.saturating_add(1)` on a `u16`. -/
def add_session_count (c : Int) : Int :=
  min (c + 1) 65535

/-- A history of count updates: `true` = an `add_session` increment,
`false` = a `close_session` decrement. -/
def applyCountOps (c : Int) (ops : List Bool) : Int :=
  ops.foldl (fun acc op => if op then add_session_count acc else close_session_count acc) c

/-! Section: The transport layer (`qldb_request_session`, lines 252–282) -/

/-- Mirrors `rusoto_qldb_session::StartSessionResult` as used at lines
266–272: only the `session_token` field matters. -/
structure StartSessionResult where
  session_token : Option String
deriving DecidableEq

/-- Mirrors the `SendCommandResult` response as used at line 266: only the
`start_session` field matters. -/
structure SendCommandResult where
  start_session : Option StartSessionResult
deriving DecidableEq

/-- Mirrors the `RusotoError` cases distinguished at lines 277–280:
`Credentials` versus everything else (the `_` arm). -/
inductive RusotoErr where
  | Credentials (msg : String)
  | Other (msg : String)
deriving DecidableEq

/-- Mirrors `enum GetSessionError` (lines 244–250); the `eyre::Report`
payload is modelled as its message string. -/
inductive GetSessionError where
  | Unrecoverable (msg : String)
  | Recoverable (msg : String)
deriving DecidableEq

/-- Mirrors `qldb_request_session` (lines 252–282): classify the wire-level
outcome of one `send_command` call. -/
def qldb_request_session (reply : Except RusotoErr SendCommandResult) :
    Except GetSessionError String :=
  match reply with
  | .ok response =>
      match response.start_session with
      | some session =>
          match session.session_token with
          | some token => .ok token
          | none => .error (.Unrecoverable "No session present on QLDB response")
      | none => .error (.Unrecoverable "Empty session on QLDB response")
  | .error err =>
      match err with
      | .Credentials m => .error (.Unrecoverable m)
      | .Other m => .error (.Recoverable m)

/-- Whether a `qldb_request_session` outcome is a `Recoverable` error. -/
def isRecoverableResult : Except GetSessionError String → Bool
  | .error (.Recoverable _) => true
  | _ => false

/-! Section: The creation retry loop (`create_session`, lines 217–242) -/

deriving instance DecidableEq for Except

/-- Observable run of `create_session`: final result, number of transport
attempts made, and the list of backoff delays (in ms) slept between
attempts, in order. -/
structure CreateSessionRun where
  result : Except GetSessionError String
  attempts : Nat
  delays : List Nat
deriving DecidableEq

/-- Mirrors the `loop` of `create_session` (lines 221–239).  `transport n`
is the wire outcome of the n-th `send_command` call (n starts at 1, as
`tries` is incremented at the top of each iteration).  The `tries > 10`
guard is checked before the per-variant arms, exactly as in the source
`match`; a recoverable failure inside the budget sleeps
`tries² × 75` ms and retries. -/
def create_session_go (transport : Nat → Except RusotoErr SendCommandResult)
    (tries : Nat) : CreateSessionRun :=
  let t := tries + 1
  match qldb_request_session (transport t) with
  | .ok token => ⟨.ok token, t, []⟩
  | .error e =>
      if h : 10 < t then ⟨.error e, t, []⟩
      else
        match e with
        | .Recoverable _ =>
            let r := create_session_go transport t
            ⟨r.result, r.attempts, (t * t * 75) :: r.delays⟩
        | .Unrecoverable m => ⟨.error (.Unrecoverable m), t, []⟩
termination_by 10 - tries
decreasing_by omega

/-- Mirrors `create_session` (lines 217–242): `tries` starts at 0. -/
def create_session (transport : Nat → Except RusotoErr SendCommandResult) :
    CreateSessionRun :=
  create_session_go transport 0

/-! Section: Pool state shared by the two worker tasks (lines 78–80) -/

/-- The mutable pool state: the idle `VecDeque<Session>` (`sessions`), the
waiter `VecDeque<Sender<Session>>` (`session_requests`) and the
`AtomicU16` active session count.  List head = `pop_back` end; appending
at the tail = `push_front`. -/
structure PoolState where
  idle : List Session
  waiters : List Waiter
  count : Nat
deriving DecidableEq

/-- Mirrors `try_send_session` (lines 364–374): attempt non-blocking
delivery of one session to one reply channel; on failure the session is
recovered from the error (`get_session_from_send_err`, lines 327–332) and
pushed to the front of the idle deque.  Returns the delivered session (if
any) and the updated idle deque. -/
def try_send_session (alive : Bool) (s : Session) (idle : List Session) :
    Option Session × List Session :=
  if alive then (some s, idle) else (none, idle ++ [s])

/-- Result of one run of the drain helper. -/
structure DrainOut where
  idle : List Session
  waiters : List Waiter
  deliveries : List (Waiter × Session)
deriving DecidableEq

/-- Mirrors `try_send_session_to_session_requesters` (lines 334–362):
repeatedly pop the oldest idle session and the oldest waiter; a failed
`try_send` requeues the session (front) and drops that waiter; a
successful send continues with the next pair; when the waiter deque is
empty the popped session is pushed back to the front; when the idle deque
is empty the loop stops.  No validity check is performed here. -/
def try_send_session_to_session_requesters :
    List Session → List Waiter → DrainOut
  | [], ws => ⟨[], ws, []⟩
  | s :: rest, [] => ⟨rest ++ [s], [], []⟩
  | s :: rest, w :: wrest =>
      if w.alive then
        let d := try_send_session_to_session_requesters rest wrest
        ⟨d.idle, d.waiters, (w, s) :: d.deliveries⟩
      else
        try_send_session_to_session_requesters (rest ++ [s]) wrest
termination_by idle ws => ws.length
decreasing_by all_goals simp only [List.length_cons]; omega

/-! Section: The command loop (lines 92–141) -/

/-- Observable outcome of handling one `PoolCommand::Request` (the `loop`
at lines 114–139), before the waiter is (possibly) appended: the session
delivered to the requester (if any), the remaining idle deque, the evicted
(expired) sessions in eviction order, the updated count, the number of
`try_send` delivery attempts made, and whether the handler queued the
requester and emitted a demand signal. -/
structure ReqGoOut where
  delivered : Option Session
  idle : List Session
  evicted : List Session
  count : Nat
  attempts : Nat
  demand : Bool
  queuedWaiter : Bool
deriving DecidableEq

/-- The `loop` of the `Request` arm (lines 114–139): pop the oldest idle
session; `None` ⇒ queue the requester and emit one demand signal;
an invalid session is evicted (`close_session`, which decrements the count
with `saturating_sub`) and the loop repeats (`continue`); a valid session
gets exactly one `try_send_session` delivery attempt and then the loop
unconditionally breaks, whether or not delivery succeeded. -/
def handleRequestGo (now : Nat) (alive : Bool) :
    List Session → Nat → ReqGoOut
  | [], count => ⟨none, [], [], count, 0, true, true⟩
  | s :: rest, count =>
      if s.is_valid now then
        match try_send_session alive s rest with
        | (delivered, idle) => ⟨delivered, idle, [], count, 1, false, false⟩
      else
        let r := handleRequestGo now alive rest (count - 1)
        ⟨r.delivered, r.idle, s :: r.evicted, r.count, r.attempts, r.demand, r.queuedWaiter⟩

/-- Observable outcome of one `PoolCommand::Request` against the full pool
state. -/
structure ReqOut where
  st : PoolState
  delivered : Option Session
  evicted : List Session
  attempts : Nat
  demand : Bool
deriving DecidableEq

/-- Handling of `PoolCommand::Request(sender)` (lines 114–139) on the pool
state: run the pop/deliver loop; when the idle deque was exhausted the
reply channel is pushed to the front of the waiter deque and one demand
signal is sent on `session_create_request`. -/
def handleRequest (now : Nat) (w : Waiter) (st : PoolState) : ReqOut :=
  let r := handleRequestGo now w.alive st.idle st.count
  ⟨⟨r.idle, if r.queuedWaiter then st.waiters ++ [w] else st.waiters, r.count⟩,
    r.delivered, r.evicted, r.attempts, r.demand⟩

/-- Observable outcome of one `PoolCommand::Return`. -/
structure RetOut where
  st : PoolState
  deliveries : List (Waiter × Session)
  evicted : Option Session
deriving DecidableEq

/-- Handling of `PoolCommand::Return(session)` (lines 94–113): an invalid
session is evicted (`close_session`: remote close under retry, count
decremented with `saturating_sub`, session dropped); a valid session is
pushed to the front of the idle deque and the drain helper is run.  The
drain performs no validity check. -/
def handleReturn (now : Nat) (s : Session) (st : PoolState) : RetOut :=
  if s.is_valid now then
    let d := try_send_session_to_session_requesters (st.idle ++ [s]) st.waiters
    ⟨⟨d.idle, d.waiters, st.count⟩, d.deliveries, none⟩
  else
    ⟨⟨st.idle, st.waiters, st.count - 1⟩, [], some s⟩

/-! Section: The creation loop (lines 151–183) -/

/-- Outcome of one `create_session` round as seen by the creation loop:
either a fresh token or a failure (retries exhausted or unrecoverable). -/
inductive CreateOutcome where
  | ok (token : String)
  | err
deriving DecidableEq

/-- Observable outcome of the creation loop consuming one demand signal. -/
structure CreateRoundOut where
  st : PoolState
  created : Option Session
  deliveries : List (Waiter × Session)
  demandReemitted : Bool
  delayMs : Nat
deriving DecidableEq

/-- Mirrors `add_session` (lines 376–386): `saturating_add(1)` on the u16
count, then push the session to the front of the idle deque. -/
def add_session (count : Nat) (idle : List Session) (s : Session) :
    Nat × List Session :=
  (min (count + 1) 65535, idle ++ [s])

/-- One iteration of the creation loop (lines 153–179), consuming one
demand signal: if `active_session_count >= max_sessions` the signal is
dropped (`continue`); on creation success the count is incremented, the
session pushed, the drain helper run, and — if capacity remains and
waiters are still queued — one new demand signal is emitted; on creation
failure the loop sleeps 100 ms and re-emits one demand signal itself. -/
def creationRound (now maxSessions : Nat) (outcome : CreateOutcome)
    (st : PoolState) : CreateRoundOut :=
  if maxSessions ≤ st.count then
    ⟨st, none, [], false, 0⟩
  else
    match outcome with
    | .ok token =>
        let s := Session.mk_new now token
        let (count, idle) := add_session st.count st.idle s
        let d := try_send_session_to_session_requesters idle st.waiters
        let reemit := decide (count < maxSessions) && !(d.waiters.isEmpty)
        ⟨⟨d.idle, d.waiters, count⟩, some s, d.deliveries, reemit, 0⟩
    | .err =>
        ⟨st, none, [], true, 100⟩

/-! Section: Whole-pool event system (for the interleaving invariant) -/

/-- An externally triggered step of the worker: one command-loop message or
one creation-loop round (the creation outcome is the transport's choice). -/
inductive PoolEvent where
  | request (w : Waiter)
  | giveBack (s : Session)
  | create (outcome : CreateOutcome)

/-- One worker step. -/
def poolStep (now maxSessions : Nat) (st : PoolState) : PoolEvent → PoolState
  | .request w => (handleRequest now w st).st
  | .giveBack s => (handleReturn now s st).st
  | .create o => (creationRound now maxSessions o st).st

/-- Running the pool from the initial state (empty deques, count 0,
lines 78–80) over a sequence of events. -/
def poolRun (now maxSessions : Nat) (evs : List PoolEvent) : PoolState :=
  evs.foldl (poolStep now maxSessions) ⟨[], [], 0⟩

/-- Every run makes at least `tries + 1` attempts (the attempt counter of the
sub-loop started at `tries` is absolute). -/
theorem go_attempts_lower (transport : Nat → Except RusotoErr SendCommandResult) (tries : Nat) :
    tries + 1 ≤ (create_session_go transport tries).attempts := by
  induction tries using create_session_go.induct transport with
  | case1 x t token heq => rw [create_session_go]; simp [heq]
  | case2 x t e heq hgt => rw [create_session_go]; simp [heq, hgt]
  | case3 x t hle msg heq ih =>
      rw [create_session_go]; simp [heq, hle]
      exact Nat.le_of_succ_le ih
  | case4 x t hle m heq => rw [create_session_go]; simp [heq, hle]

/-- Within the budget, at most 11 attempts are ever made. -/
theorem go_attempts_upper (transport : Nat → Except RusotoErr SendCommandResult) (tries : Nat)
    (h : tries ≤ 10) : (create_session_go transport tries).attempts ≤ 11 := by
  induction tries using create_session_go.induct transport with
  | case1 x t token heq => rw [create_session_go]; simp [heq]; omega
  | case2 x t e heq hgt => rw [create_session_go]; simp [heq, hgt]; omega
  | case3 x t hle msg heq ih =>
      rw [create_session_go]; simp [heq, hle]
      exact ih (by omega)
  | case4 x t hle m heq => rw [create_session_go]; simp [heq, hle]; omega

/-- The delays slept by a run started at `tries` are exactly `n² × 75` ms for
each attempt number `n` from `tries + 1` up to the last attempt minus one. -/
theorem go_delays (transport : Nat → Except RusotoErr SendCommandResult) (tries : Nat) :
    (create_session_go transport tries).delays =
      (List.range' (tries + 1)
        ((create_session_go transport tries).attempts - (tries + 1))).map
        (fun n => n * n * 75) := by
  induction tries using create_session_go.induct transport with
  | case1 x t token heq => rw [create_session_go]; simp [heq]
  | case2 x t e heq hgt => rw [create_session_go]; simp [heq, hgt]
  | case4 x t hle m heq => rw [create_session_go]; simp [heq, hle]
  | case3 x t hle msg heq ih =>
      rw [create_session_go]; simp only [heq, hle]
      have hA := go_attempts_lower transport (x + 1)
      simp only [dite_false, if_false]
      obtain ⟨n, hn⟩ : ∃ n, (create_session_go transport (x + 1)).attempts - (x + 1) = n + 1 :=
        ⟨(create_session_go transport (x + 1)).attempts - (x + 2), by omega⟩
      simp only [hn]
      rw [List.range'_succ, List.map_cons]
      simp only [List.cons.injEq, true_and]
      rw [ih]
      have hm : (create_session_go transport (x + 1)).attempts - (x + 1 + 1) = n := by omega
      rw [hm]

/-- If every attempt fails recoverably, the run makes exactly 11 attempts and
surfaces the 11th outcome. -/
theorem go_all_recoverable (transport : Nat → Except RusotoErr SendCommandResult)
    (hrec : ∀ n, isRecoverableResult (qldb_request_session (transport n)) = true)
    (tries : Nat) (h : tries ≤ 10) :
    (create_session_go transport tries).attempts = 11 ∧
    (create_session_go transport tries).result = qldb_request_session (transport 11) := by
  induction tries using create_session_go.induct transport with
  | case1 x t token heq =>
      exfalso; have hr := hrec (x + 1); rw [heq] at hr; simp [isRecoverableResult] at hr
  | case2 x t e heq hgt =>
      rw [create_session_go]; simp [heq, hgt]
      have hx : x = 10 := by omega
      subst hx
      exact ⟨rfl, heq.symm⟩
  | case3 x t hle msg heq ih =>
      rw [create_session_go]; simp [heq, hle]
      exact ih (by omega)
  | case4 x t hle m heq =>
      exfalso; have hr := hrec (x + 1); rw [heq] at hr; simp [isRecoverableResult] at hr

/-- If attempts before `k` fail recoverably and attempt `k` classifies as
Unrecoverable (`k` within the budget), the run aborts at attempt `k` with
that error. -/
theorem go_unrecoverable_abort (transport : Nat → Except RusotoErr SendCommandResult)
    (k : Nat) (em : String) (hk : k ≤ 11)
    (hku : qldb_request_session (transport k) = .error (.Unrecoverable em))
    (tries : Nat) (hlt : tries < k)
    (hrec : ∀ n, tries < n → n < k → isRecoverableResult (qldb_request_session (transport n)) = true) :
    (create_session_go transport tries).result = .error (.Unrecoverable em) ∧
    (create_session_go transport tries).attempts = k := by
  induction tries using create_session_go.induct transport with
  | case1 x t token heq =>
      exfalso
      have heq2 : qldb_request_session (transport (x + 1)) = Except.ok token := heq
      rcases Nat.lt_or_ge (x + 1) k with hxk | hxk
      · have hr := hrec (x + 1) (by omega) hxk
        rw [heq2] at hr; simp [isRecoverableResult] at hr
      · have hx : x + 1 = k := by omega
        rw [hx, hku] at heq2; exact absurd heq2 (by simp)
  | case2 x t e heq hgt =>
      rw [create_session_go]; simp [heq, hgt]
      have heq2 : qldb_request_session (transport (x + 1)) = Except.error e := heq
      have hx : x + 1 = k := by omega
      rw [hx, hku] at heq2
      injection heq2 with h1
      exact ⟨h1.symm, hx⟩
  | case3 x t hle msg heq ih =>
      have heq2 : qldb_request_session (transport (x + 1))
          = Except.error (.Recoverable msg) := heq
      rcases Nat.lt_or_ge (x + 1) k with hxk | hxk
      · rw [create_session_go]; simp [heq, hle]
        exact ih hxk (fun n h1 h2 => hrec n (by omega) h2)
      · exfalso
        have hx : x + 1 = k := by omega
        rw [hx, hku] at heq2
        injection heq2 with h1
        exact absurd h1 (by simp)
  | case4 x t hle m heq =>
      have heq2 : qldb_request_session (transport (x + 1))
          = Except.error (.Unrecoverable m) := heq
      rcases Nat.lt_or_ge (x + 1) k with hxk | hxk
      · exfalso
        have hr := hrec (x + 1) (by omega) hxk
        rw [heq2] at hr; simp [isRecoverableResult] at hr
      · rw [create_session_go]; simp [heq, hle]
        have hx : x + 1 = k := by omega
        rw [hx, hku] at heq2
        injection heq2 with h1
        injection h1 with h2
        exact ⟨h2.symm, hx⟩

/-! Section: Claim theorems: the retry policy (C3, C7, C9) -/

/-- A transport that fails recoverably on attempts 1–10 and succeeds on
attempt 11. -/
def transportTenFailures (n : Nat) : Except RusotoErr SendCommandResult :=
  if n ≤ 10 then .error (.Other "econn") else .ok ⟨some ⟨some "tok"⟩⟩

/-- C3 (counterexample): with ten recoverable failures `create_session`
still succeeds on an 11th attempt, sleeping ten backoff delays
`n² × 75 ms` for `n = 1..10` — the loop guard is `tries > 10`, so the claim
of at most 10 attempts with delays for `n = 1..9` is false. -/
theorem create_session_eleven_attempts_cex :
    create_session transportTenFailures =
      ⟨.ok "tok", 11, [75, 300, 675, 1200, 1875, 2700, 3675, 4800, 6075, 7500]⟩
    ∧ ¬((create_session transportTenFailures).attempts ≤ 10) := by
  constructor
  · simp [create_session, create_session_go, transportTenFailures, qldb_request_session]
  · simp [create_session, create_session_go, transportTenFailures, qldb_request_session]

/-- C3 (amended): `create_session` makes at most 11 transport attempts per
creation round; the delays slept are exactly `n² × 75` ms for each attempt
number `n` from 1 to the final attempt minus one (so no delay before the
first attempt, and delays for `n = 1..10` when the budget is exhausted);
if every attempt fails recoverably the round stops after the 11th attempt
and surfaces that final error. -/
theorem create_session_retry_schedule (transport : Nat → Except RusotoErr SendCommandResult) :
    (create_session transport).attempts ≤ 11
    ∧ (create_session transport).delays =
        (List.range' 1 ((create_session transport).attempts - 1)).map (fun n => n * n * 75)
    ∧ ((∀ n, isRecoverableResult (qldb_request_session (transport n)) = true) →
        (create_session transport).attempts = 11
        ∧ (create_session transport).result = qldb_request_session (transport 11)) := by
  refine ⟨go_attempts_upper transport 0 (by omega), ?_, fun hrec =>
    go_all_recoverable transport hrec 0 (by omega)⟩
  simpa using go_delays transport 0

/-- Witness for the amended C3 theorem at a concrete all-recoverable
transport. -/
theorem create_session_retry_schedule_witness :
    (create_session (fun _ => .error (.Other "econn"))).attempts = 11
    ∧ (create_session (fun _ => .error (.Other "econn"))).result
        = .error (.Recoverable "econn") := by
  have h := (create_session_retry_schedule (fun _ => .error (.Other "econn"))).2.2
    (fun _ => rfl)
  exact ⟨h.1, h.2⟩

/-- C7: credential errors classify as Unrecoverable, every other transport
error as Recoverable; and whenever attempt `k` (within the budget) fails
unrecoverably after recoverable failures, the creation round aborts right
there: the final error is surfaced, exactly `k` attempts are made, and
only the `k - 1` backoff delays before attempt `k` are slept (zero
additional delay). -/
theorem unrecoverable_short_circuit :
    (∀ m, qldb_request_session (.error (.Credentials m)) = .error (.Unrecoverable m))
    ∧ (∀ m, qldb_request_session (.error (.Other m)) = .error (.Recoverable m))
    ∧ (∀ (transport : Nat → Except RusotoErr SendCommandResult) (k : Nat) (em : String),
        1 ≤ k → k ≤ 11 →
        (∀ n, 1 ≤ n → n < k → isRecoverableResult (qldb_request_session (transport n)) = true) →
        qldb_request_session (transport k) = .error (.Unrecoverable em) →
        (create_session transport).result = .error (.Unrecoverable em)
        ∧ (create_session transport).attempts = k
        ∧ (create_session transport).delays.length = k - 1) := by
  refine ⟨fun m => rfl, fun m => rfl, fun transport k em h1 h11 hrec hku => ?_⟩
  have habort := go_unrecoverable_abort transport k em h11 hku 0 (by omega)
    (fun n hn1 hn2 => hrec n (by omega) hn2)
  refine ⟨habort.1, habort.2, ?_⟩
  have hd := go_delays transport 0
  simp only [create_session] at habort hd ⊢
  rw [hd, habort.2, List.length_map, List.length_range']

/-- Witness for C7: a credential error on the very first attempt aborts
with one attempt and an empty delay list. -/
theorem unrecoverable_short_circuit_witness :
    (create_session (fun _ => .error (.Credentials "denied"))).result
        = .error (.Unrecoverable "denied")
    ∧ (create_session (fun _ => .error (.Credentials "denied"))).attempts = 1
    ∧ (create_session (fun _ => .error (.Credentials "denied"))).delays.length = 0 := by
  exact unrecoverable_short_circuit.2.2 (fun _ => .error (.Credentials "denied")) 1 "denied"
    (by omega) (by omega) (fun n hn1 hn2 => absurd hn2 (by omega)) rfl

/-- C9: a wire-level success carrying no `start_session`, or a
`start_session` with no `session_token`, is classified Unrecoverable (never
a success, never Recoverable), so `create_session` makes exactly one
attempt with it and produces an error, not a session. -/
theorem empty_response_unrecoverable :
    qldb_request_session (.ok ⟨none⟩)
        = .error (.Unrecoverable "Empty session on QLDB response")
    ∧ qldb_request_session (.ok ⟨some ⟨none⟩⟩)
        = .error (.Unrecoverable "No session present on QLDB response")
    ∧ create_session (fun _ => .ok ⟨none⟩)
        = ⟨.error (.Unrecoverable "Empty session on QLDB response"), 1, []⟩
    ∧ create_session (fun _ => .ok ⟨some ⟨none⟩⟩)
        = ⟨.error (.Unrecoverable "No session present on QLDB response"), 1, []⟩ := by
  refine ⟨rfl, rfl, ?_, ?_⟩ <;>
    simp [create_session, create_session_go, qldb_request_session]

/-! Section: Claim theorems: shutdown (C1) -/

/-- C1 (code-bug evaluation): after `SessionPool::close()` the facade's
synchronizer is consumed, but the `PoolEndFuture` the worker's run loop
blocks on (`closer_executor`, a separate instance constructed at line 74)
is still not ready and still polls Pending — the run loop never observes
shutdown readiness. -/
theorem close_does_not_signal_worker_future :
    (SessionPool.close_pool PoolShutdownState.init).facade_closer = none
    ∧ (SessionPool.close_pool PoolShutdownState.init).worker_future.ready = false
    ∧ ∀ w : Waker,
        ((SessionPool.close_pool PoolShutdownState.init).worker_future.poll w).2 = false := by
  exact ⟨rfl, rfl, fun w => rfl⟩

/-! Section: Claim theorems: the creation loop on failure (C2) -/

/-- C2 (counterexample): a creation round that fails (with capacity
available) re-emits a demand signal itself after a 100 ms sleep — it does
not merely drop the signal and wait for a future Request. -/
theorem creation_failure_reemits_demand_cex :
    (creationRound 0 1 .err ⟨[], [], 0⟩).demandReemitted = true
    ∧ (creationRound 0 1 .err ⟨[], [], 0⟩).created = none
    ∧ (creationRound 0 1 .err ⟨[], [], 0⟩).delayMs = 100 := by
  refine ⟨by decide, by decide, by decide⟩

/-- C2 (amended): when a creation round fails with capacity available, no
session is created that round and the pool state is untouched, but the
Creation Loop itself sleeps 100 ms and re-emits one demand signal (a
future Request is not required to restart creation). -/
theorem creation_failure_round_amended (now maxSessions : Nat) (st : PoolState)
    (h : st.count < maxSessions) :
    creationRound now maxSessions .err st = ⟨st, none, [], true, 100⟩ := by
  simp [creationRound, Nat.not_le.mpr h]

/-- Witness for the amended C2 theorem. -/
theorem creation_failure_round_amended_witness :
    creationRound 5 3 .err ⟨[], [], 2⟩ = ⟨⟨[], [], 2⟩, none, [], true, 100⟩ :=
  creation_failure_round_amended 5 3 ⟨[], [], 2⟩ (by decide)

/-! Section: Lemmas about the Request-arm loop -/

/-- Popping past a block of invalid sessions evicts each of them (one
`saturating_sub` per eviction) and continues with the remainder. -/
theorem handleRequestGo_evicts_invalid_block (now : Nat) (alive : Bool)
    (pre : List Session) (hpre : ∀ x ∈ pre, x.is_valid now = false) :
    ∀ (rest : List Session) (count : Nat),
      handleRequestGo now alive (pre ++ rest) count =
        { handleRequestGo now alive rest (count - pre.length) with
          evicted := pre ++ (handleRequestGo now alive rest (count - pre.length)).evicted } := by
  induction pre with
  | nil => intro rest count; simp
  | cons a as ih =>
      intro rest count
      have ha : a.is_valid now = false := hpre a (by simp)
      simp only [List.cons_append, handleRequestGo, ha, Bool.false_eq_true, if_false,
        List.append_eq]
      rw [ih (fun x hx => hpre x (by simp [hx])) rest (count - 1)]
      have : count - 1 - as.length = count - (as.length + 1) := by omega
      simp [this]

/-- A delivered session was valid at pop time. -/
theorem handleRequestGo_delivered_valid (now : Nat) (alive : Bool) :
    ∀ (idle : List Session) (count : Nat) (s : Session),
      (handleRequestGo now alive idle count).delivered = some s →
      s.is_valid now = true := by
  intro idle
  induction idle with
  | nil => intro count s h; simp [handleRequestGo] at h
  | cons a rest ih =>
      intro count s h
      by_cases hv : a.is_valid now
      · simp only [handleRequestGo, hv, if_true, try_send_session] at h
        cases alive with
        | true => simp at h; rw [← h]; exact hv
        | false => simp at h
      · simp only [handleRequestGo, Bool.not_eq_true] at h
        rw [if_neg (by simp [hv])] at h
        exact ih _ s h

/-! Section: Claim theorems: the Request arm (C4) -/

/-- C4 (counterexample): a dead requester and two valid idle sessions — the
popped session's delivery fails, the session is requeued, and the handler
breaks after a single delivery attempt: the second idle session is never
tried, no waiter is queued and no demand signal is emitted, contradicting
"the loop stops only on delivery success or when the Idle Store is
exhausted". -/
theorem request_delivery_failure_stops_cex :
    handleRequest 0 ⟨7, false⟩ ⟨[⟨"a", 0⟩, ⟨"b", 0⟩], [], 5⟩ =
      ⟨⟨[⟨"b", 0⟩, ⟨"a", 0⟩], [], 5⟩, none, [], 1, false⟩ := by
  decide

/-- C4 (amended): the Request handler pops past invalid sessions, evicting
each; at the first valid session it makes exactly one delivery attempt and
then stops, whether delivery succeeded or failed — on success the session
is delivered and the remaining idle sessions are untouched; on failure the
session is requeued at the front by `try_send_session` and the loop does
NOT repeat; only when the Idle Store is exhausted is the reply channel
queued and one demand signal emitted. -/
theorem request_loop_amended (now : Nat) :
    (∀ (count : Nat) (ws : List Waiter) (i : Nat) (pre post : List Session) (s : Session),
      (∀ x ∈ pre, x.is_valid now = false) → s.is_valid now = true →
      handleRequest now ⟨i, true⟩ ⟨pre ++ s :: post, ws, count⟩ =
        ⟨⟨post, ws, count - pre.length⟩, some s, pre, 1, false⟩)
    ∧ (∀ (count : Nat) (ws : List Waiter) (i : Nat) (pre post : List Session) (s : Session),
      (∀ x ∈ pre, x.is_valid now = false) → s.is_valid now = true →
      handleRequest now ⟨i, false⟩ ⟨pre ++ s :: post, ws, count⟩ =
        ⟨⟨post ++ [s], ws, count - pre.length⟩, none, pre, 1, false⟩)
    ∧ (∀ (count : Nat) (ws : List Waiter) (w : Waiter) (idle : List Session),
      (∀ x ∈ idle, x.is_valid now = false) →
      handleRequest now w ⟨idle, ws, count⟩ =
        ⟨⟨[], ws ++ [w], count - idle.length⟩, none, idle, 0, true⟩) := by
  refine ⟨?_, ?_, ?_⟩
  · intro count ws i pre post s hpre hs
    simp only [handleRequest]
    rw [handleRequestGo_evicts_invalid_block now true pre hpre (s :: post) count]
    simp [handleRequestGo, hs, try_send_session]
  · intro count ws i pre post s hpre hs
    simp only [handleRequest]
    rw [handleRequestGo_evicts_invalid_block now false pre hpre (s :: post) count]
    simp [handleRequestGo, hs, try_send_session]
  · intro count ws w idle hidle
    have hblock := handleRequestGo_evicts_invalid_block now w.alive idle hidle [] count
    rw [List.append_nil] at hblock
    simp only [handleRequest, hblock]
    simp [handleRequestGo]

/-- Witness for the amended C4 theorem, exercising both delivery outcomes
at the same concrete state: one expired session is evicted, then the valid
session is delivered in one attempt to a live requester (remaining idle
session untouched), while with a dead requester the same delivery fails,
the session is requeued, and the handler stops with one attempt made. -/
theorem request_loop_amended_witness :
    (handleRequest 700 ⟨7, true⟩ ⟨[⟨"old", 0⟩, ⟨"s", 650⟩, ⟨"p", 650⟩], [], 3⟩ =
      ⟨⟨[⟨"p", 650⟩], [], 2⟩, some ⟨"s", 650⟩, [⟨"old", 0⟩], 1, false⟩)
    ∧ (handleRequest 700 ⟨7, false⟩ ⟨[⟨"old", 0⟩, ⟨"s", 650⟩, ⟨"p", 650⟩], [], 3⟩ =
      ⟨⟨[⟨"p", 650⟩, ⟨"s", 650⟩], [], 2⟩, none, [⟨"old", 0⟩], 1, false⟩) :=
  ⟨(request_loop_amended 700).1 3 [] 7 [⟨"old", 0⟩] [⟨"p", 650⟩] ⟨"s", 650⟩
      (by decide) (by decide),
    (request_loop_amended 700).2.1 3 [] 7 [⟨"old", 0⟩] [⟨"p", 650⟩] ⟨"s", 650⟩
      (by decide) (by decide)⟩

/-! Section: Claim theorems: validity on delivery (C6) -/

/-- C6 (counterexample): an expired session sitting in the Idle Store is
delivered to a waiting `get()` caller by the Return handler's drain helper,
which performs no validity check: with the expired session `"expired"`
(created at 0, now 700) queued and a live waiter, returning the still-valid
session `"fresh"` hands `"expired"` to the waiter. -/
theorem invalid_session_delivered_cex :
    (handleReturn 700 ⟨"fresh", 650⟩ ⟨[⟨"expired", 0⟩], [⟨0, true⟩], 2⟩).deliveries
      = [(⟨0, true⟩, ⟨"expired", 0⟩)]
    ∧ Session.is_valid 700 ⟨"expired", 0⟩ = false
    ∧ Session.is_valid 700 ⟨"fresh", 650⟩ = true := by
  refine ⟨?_, by decide, by decide⟩
  simp [handleReturn, try_send_session_to_session_requesters, Session.is_valid]

/-- C6 (amended): the explicit validity checks hold — the Request handler
never delivers a session that is invalid at pop time (it evicts invalid
sessions, decrementing the count), and the Return handler evicts an
invalid returned session instead of queuing it; but the drain helper used
after a valid return performs no validity check, so a session that expires
while queued can still reach a waiter. -/
theorem handler_validity_checks (now : Nat) :
    (∀ (w : Waiter) (st : PoolState) (s : Session),
        (handleRequest now w st).delivered = some s → s.is_valid now = true)
    ∧ (∀ (s : Session) (st : PoolState), s.is_valid now = false →
        handleReturn now s st = ⟨⟨st.idle, st.waiters, st.count - 1⟩, [], some s⟩) := by
  constructor
  · intro w st s h
    exact handleRequestGo_delivered_valid now w.alive st.idle st.count s h
  · intro s st h
    simp [handleReturn, h]

/-- Witness for the C6 theorem: a delivered session is valid; an expired
returned session is evicted with the count decremented. -/
theorem handler_validity_checks_witness :
    Session.is_valid 0 ⟨"a", 0⟩ = true
    ∧ handleReturn 700 ⟨"old", 0⟩ ⟨[], [], 4⟩ = ⟨⟨[], [], 3⟩, [], some ⟨"old", 0⟩⟩ := by
  refine ⟨?_, (handler_validity_checks 700).2 ⟨"old", 0⟩ ⟨[], [], 4⟩ (by decide)⟩
  exact (handler_validity_checks 0).1 ⟨1, true⟩ ⟨[⟨"a", 0⟩], [], 1⟩ ⟨"a", 0⟩ (by decide)

/-! Section: Claim theorems: give-back / get round trip (C8) -/

/-- C8 (counterexample): with two other valid sessions already idle,
`give_back` of the still-valid session `"s"` immediately followed by
`get()` yields session `"u"`, not `"s"` — the round-trip-same-id claim is
false in general. -/
theorem round_trip_cex :
    (handleRequest 0 ⟨1, true⟩
        (handleReturn 0 ⟨"s", 0⟩ ⟨[⟨"t", 0⟩, ⟨"u", 0⟩], [], 3⟩).st).delivered
      = some ⟨"u", 0⟩
    ∧ (Session.mk "u" 0).session_id ≠ (Session.mk "s" 0).session_id := by
  constructor
  · simp [handleReturn, try_send_session_to_session_requesters, handleRequest,
      handleRequestGo, try_send_session, Session.is_valid]
  · decide

/-- C8 (amended): when the Idle Store holds at most one other session and
no waiters are queued, `give_back` of a still-valid session immediately
followed by `get()` delivers exactly that session, and the Request handler
emits no demand signal (so no `start_session` round is triggered for that
`get()`). -/
theorem round_trip_small_pool (now count i : Nat) (s : Session)
    (idle : List Session) (hlen : idle.length ≤ 1) (hs : s.is_valid now = true) :
    (handleRequest now ⟨i, true⟩ (handleReturn now s ⟨idle, [], count⟩).st).delivered = some s
    ∧ (handleRequest now ⟨i, true⟩ (handleReturn now s ⟨idle, [], count⟩).st).demand = false := by
  rcases idle with _ | ⟨t, _ | ⟨u, rest⟩⟩
  · constructor <;> simp [handleReturn, hs, try_send_session_to_session_requesters,
      handleRequest, handleRequestGo, try_send_session]
  · constructor <;> simp [handleReturn, hs, try_send_session_to_session_requesters,
      handleRequest, handleRequestGo, try_send_session]
  · simp at hlen

/-- Witness for the amended C8 theorem. -/
theorem round_trip_small_pool_witness :
    (handleRequest 5 ⟨1, true⟩
        (handleReturn 5 ⟨"s", 0⟩ ⟨[⟨"t", 0⟩], [], 2⟩).st).delivered = some ⟨"s", 0⟩
    ∧ (handleRequest 5 ⟨1, true⟩
        (handleReturn 5 ⟨"s", 0⟩ ⟨[⟨"t", 0⟩], [], 2⟩).st).demand = false :=
  round_trip_small_pool 5 2 1 ⟨"s", 0⟩ [⟨"t", 0⟩] (by decide) (by decide)

/-! Section: Claim theorems: the concurrency ceiling (C5) -/

/-- The Request handler never increases the count (evictions only
decrement). -/
theorem handleRequestGo_count_le (now : Nat) (alive : Bool) :
    ∀ (idle : List Session) (count : Nat),
      (handleRequestGo now alive idle count).count ≤ count := by
  intro idle
  induction idle with
  | nil => intro count; simp [handleRequestGo]
  | cons a rest ih =>
      intro count
      by_cases hv : a.is_valid now
      · cases alive <;> simp [handleRequestGo, hv, try_send_session]
      · simp only [handleRequestGo, hv, Bool.false_eq_true, if_false]
        exact le_trans (ih (count - 1)) (by omega)

/-- Every worker step preserves the ceiling on the active session count. -/
theorem poolStep_count_le (now N : Nat) (st : PoolState) (e : PoolEvent)
    (h : st.count ≤ N) : (poolStep now N st e).count ≤ N := by
  cases e with
  | request w =>
      simp only [poolStep, handleRequest]
      exact le_trans (handleRequestGo_count_le now w.alive st.idle st.count) h
  | giveBack s =>
      by_cases hv : s.is_valid now <;> simp [poolStep, handleReturn, hv] <;> omega
  | create o =>
      by_cases hc : N ≤ st.count
      · simpa [poolStep, creationRound, hc] using h
      · cases o with
        | ok token =>
            simp [poolStep, creationRound, hc, add_session]
            omega
        | err => simpa [poolStep, creationRound, hc] using h

/-- C5: over every interleaving of Request / Return commands and creation
rounds from the initial empty pool, the active session count stays between
0 and `max_sessions` (it is a `Nat`, so 0 ≤ count holds by construction);
and the Creation Loop drops a demand signal without creating a session
whenever the count has reached `max_sessions`. -/
theorem active_count_bounded (now N : Nat) :
    (∀ evs : List PoolEvent, (poolRun now N evs).count ≤ N)
    ∧ (∀ (o : CreateOutcome) (st : PoolState), N ≤ st.count →
        creationRound now N o st = ⟨st, none, [], false, 0⟩) := by
  constructor
  · have hfold : ∀ (evs : List PoolEvent) (st : PoolState), st.count ≤ N →
        (evs.foldl (poolStep now N) st).count ≤ N := by
      intro evs
      induction evs with
      | nil => intro st h; simpa using h
      | cons e rest ih =>
          intro st h
          simpa using ih _ (poolStep_count_le now N st e h)
    intro evs
    simpa [poolRun] using hfold evs ⟨[], [], 0⟩ (by simp)
  · intro o st h
    simp [creationRound, h]

/-- Witness for the C5 theorem on a concrete interleaving that tries to
create three sessions under a ceiling of two. -/
theorem active_count_bounded_witness :
    (poolRun 0 2 [.create (.ok "a"), .create (.ok "b"), .create (.ok "c"),
        .request ⟨1, true⟩, .giveBack ⟨"a", 0⟩]).count ≤ 2
    ∧ creationRound 0 2 (.ok "x") ⟨[], [], 2⟩ = ⟨⟨[], [], 2⟩, none, [], false, 0⟩ :=
  ⟨(active_count_bounded 0 2).1 _,
    (active_count_bounded 0 2).2 (.ok "x") ⟨[], [], 2⟩ (by decide)⟩

/-! Section: Claim theorems: saturating count arithmetic (C10) -/

/-- C10: the active count's `saturating_sub`/`saturating_add` updates keep
it a well-defined u16 after any sequence of `add_session` and
`close_session` calls: it never drops below 0 (even when close attempts
outnumber creations) and never exceeds 65535. -/
theorem count_ops_bounded (c : Int) (ops : List Bool) (h0 : 0 ≤ c) (h1 : c ≤ 65535) :
    0 ≤ applyCountOps c ops ∧ applyCountOps c ops ≤ 65535 := by
  induction ops generalizing c with
  | nil => exact ⟨h0, h1⟩
  | cons op rest ih =>
      have hstep : applyCountOps c (op :: rest)
          = applyCountOps (if op then add_session_count c else close_session_count c) rest := by
        simp [applyCountOps]
      rw [hstep]
      cases op with
      | false =>
          simp only [if_false, Bool.false_eq_true]
          exact ih _ (le_max_right _ _) (max_le (by omega) (by omega))
      | true =>
          simp only [if_true]
          exact ih _ (le_min (by omega) (by omega)) (min_le_right _ _)

/-- Witness for the C10 theorem: more closes than creations from zero. -/
theorem count_ops_bounded_witness :
    0 ≤ applyCountOps 0 [false, false, true, false, false]
    ∧ applyCountOps 0 [false, false, true, false, false] ≤ 65535 :=
  count_ops_bounded 0 [false, false, true, false, false] (by decide) (by decide)
